import Mathlib

/-!
Verification of the SigNoz bootstrap core (pkg/signoz/signoz.go).

The Go function New assembles a SigNoz object from pluggable providers:
instrumentation, zeus (control-plane client), emailing, cache, web,
sqlstore, telemetrystore, prometheus, sql migrations, alertmanager,
licensing, modules, handlers, and finally a lifecycle Registry.
Go's (T, error) return convention is embedded as Except Err T; the
bootstrap is additionally instrumented with an event trace recording which
steps were attempted and how they ended, so that ordering and
fail-fast claims become statements about the trace.

The factory package (NewProviderFromNamedMap, Registry, NewRegistry) and
the sqlmigrator are referenced by signoz.go but their bodies are not part
of the provided source; those definitions are modelled from the spec and
marked as such in their doc comments.
-/

namespace Signoz

/-- Error taxonomy of the bootstrap layer, mirroring the spec's error
design: NotFound (provider name absent from a factory map), DuplicateName
(registry wiring bug), wrapped construction failures carrying component and
provider identity, opaque failures from collaborator code, and the
aggregate error produced by Registry stop. -/
inductive Err where
  | notFound (component : String) (nm : String)
  | duplicateName (nm : String)
  | wrapped (component : String) (nm : String) (err : Err)
  | failure (msg : String)
  | aggregate (errs : List Err)

/-- Go's (T, error) pair, embedded: exactly one of a value or an error. -/
abbrev Res (α : Type) := Except Err α

/-- Opaque stand-in for Go's context.Context. -/
structure Ctx where
  val : Nat

/-- Opaque stand-in for the logger handle. -/
structure Logger where
  val : Nat

/-- Shared provider settings produced by instrumentation and passed to
every factory (instrumentation.ToProviderSettings in the source). -/
abbrev ProviderSettings := Nat

/-- Start/stop behaviour of a long-lived service: what its Start and Stop
calls return. Components registered in the Registry carry one of these. -/
structure Service where
  startResult : Res Unit
  stopResult : Res Unit

/-- Instrumentation component: exposes the shared provider settings, a
logger, and (being registered in the Registry) a service lifecycle. -/
structure Instrumentation where
  providerSettings : ProviderSettings
  logger : Logger
  service : Service

/-- Control-plane client component (pkg/zeus), opaque. -/
structure Zeus where
  val : Nat

/-- Emailing component, opaque. -/
structure Emailing where
  val : Nat

/-- Cache component, opaque. -/
structure Cache where
  val : Nat

/-- Web transport component, opaque. -/
structure Web where
  val : Nat

/-- SQL storage handle, opaque. -/
structure SQLStore where
  val : Nat

/-- Telemetry store component, opaque. -/
structure TelemetryStore where
  val : Nat

/-- Metrics-query engine (pkg/prometheus), opaque. -/
structure Prometheus where
  val : Nat

/-- Alert-evaluation engine; registered in the Registry, so it carries a
service lifecycle. -/
structure Alertmanager where
  val : Nat
  service : Service

/-- Licensing engine; registered in the Registry, so it carries a service
lifecycle. -/
structure Licensing where
  val : Nat
  service : Service

/-- Business modules (pure composition over providers), opaque. -/
structure Modules where
  val : Nat

/-- Request handlers for the modules, opaque. -/
structure Handlers where
  val : Nat

/-- JWT handle (pkg/types/authtypes), opaque. -/
structure JWT where
  val : Nat

/-- Per-component configuration values. Each pluggable component's config
exposes the selected provider name (Provider in the Go source) plus an
opaque payload. -/
structure InstrumentationConfig where
  val : Nat

/-- Configuration for the zeus client; zeus is not selected by name, so
its config has no provider field. -/
structure ZeusConfig where
  val : Nat

/-- Emailing configuration with its selected provider name. -/
structure EmailingConfig where
  provider : String
  val : Nat

/-- Cache configuration with its selected provider name. -/
structure CacheConfig where
  provider : String
  val : Nat

/-- Web configuration with its selected provider name. -/
structure WebConfig where
  provider : String
  val : Nat

/-- SQL store configuration with its selected provider name. -/
structure SQLStoreConfig where
  provider : String
  val : Nat

/-- Telemetry store configuration with its selected provider name. -/
structure TelemetryStoreConfig where
  provider : String
  val : Nat

/-- Prometheus configuration with its selected provider name. -/
structure PrometheusConfig where
  provider : String
  val : Nat

/-- SQL migration configuration, opaque. -/
structure SQLMigrationConfig where
  val : Nat

/-- SQL migrator configuration, opaque. -/
structure SQLMigratorConfig where
  val : Nat

/-- Alertmanager configuration with its selected provider name. -/
structure AlertmanagerConfig where
  provider : String
  val : Nat

/-- Licensing configuration, opaque (licensing is constructed through a
factory callback, not a named map). -/
structure LicensingConfig where
  val : Nat

/-- Top-level Config consumed by New, one sub-config per component,
mirroring the fields read by signoz.go. -/
structure Config where
  Instrumentation : InstrumentationConfig
  Emailing : EmailingConfig
  Cache : CacheConfig
  Web : WebConfig
  SQLStore : SQLStoreConfig
  TelemetryStore : TelemetryStoreConfig
  Prometheus : PrometheusConfig
  SQLMigration : SQLMigrationConfig
  SQLMigrator : SQLMigratorConfig
  Alertmanager : AlertmanagerConfig

/-- A provider factory (factory.ProviderFactory[T, C] in Go): given a
context, shared settings and a typed config, constructs a T or fails. -/
structure ProviderFactory (T C : Type) where
  new : Ctx → ProviderSettings → C → Res T

/-- A named factory map (factory.NamedMap in Go): the available factories
for one component type, keyed by provider name, together with the
component's own name used in NotFound errors. -/
structure NamedMap (T C : Type) where
  component : String
  factories : List (String × ProviderFactory T C)

/-- Look up the factory registered under a provider name. -/
def NamedMap.get {T C : Type} (m : NamedMap T C) (nm : String) :
    Option (ProviderFactory T C) :=
  (m.factories.find? (fun p => p.1 == nm)).map (fun p => p.2)

/-- Modelled from the spec: factory.NewProviderFromNamedMap, whose body is
not part of the provided source. Looks up the selected name in the named
factory map; if absent, fails with a NotFound error identifying the
component and the unknown name without invoking any factory; if present,
invokes the factory with exactly the given context, settings and config,
returning its instance unchanged, and wrapping a factory error with the
component and provider identity. -/
def NewProviderFromNamedMap {T C : Type} (ctx : Ctx)
    (settings : ProviderSettings) (config : C) (m : NamedMap T C)
    (nm : String) : Res T :=
  match m.get nm with
  | none => .error (.notFound m.component nm)
  | some f =>
    match f.new ctx settings config with
    | .error e => .error (.wrapped m.component nm e)
    | .ok t => .ok t

/-- A named service held by the Registry. -/
structure NamedService where
  name : String
  service : Service

/-- Lifecycle events emitted by the Registry when it starts or stops one
of its services, used as the ordered trace of instrumented stubs. -/
inductive Event where
  | start (nm : String)
  | stop (nm : String)

/-- Modelled from the spec: the lifecycle Registry (factory.Registry),
whose body is not part of the provided source. An ordered sequence of
named services plus a logger; the stopped flag records that a completed
Stop has already run, making a second Stop a no-op. -/
structure Registry where
  logger : Logger
  services : List NamedService
  stopped : Bool

/-- First name occurring twice in a list, if any. -/
def findDup : List String → Option String
  | [] => none
  | n :: rest => if n ∈ rest then some n else findDup rest

/-- Modelled from the spec: factory.NewRegistry, whose body is not part of
the provided source. Validates name uniqueness, failing with a
DuplicateName error when two services share a name (no service is started
during construction), and otherwise stores the services in the given
order with the stopped flag clear. -/
def NewRegistry (logger : Logger) (services : List NamedService) :
    Res Registry :=
  match findDup (services.map (fun s => s.name)) with
  | some n => .error (.duplicateName n)
  | none => .ok ⟨logger, services, false⟩

/-- Sequential fail-fast start loop: starts each service in list order,
emitting a start event per attempt, and returns the first failure. -/
def startSeq : List NamedService → List Event × Res Unit
  | [] => ([], .ok ())
  | s :: rest =>
    match s.service.startResult with
    | .error e => ([Event.start s.name], .error e)
    | .ok _ =>
      (Event.start s.name :: (startSeq rest).1, (startSeq rest).2)

/-- Sequential stop loop: stops every service in list order, emitting a
stop event per service, and collects every individual failure instead of
short-circuiting. -/
def stopSeq : List NamedService → List Event × List Err
  | [] => ([], [])
  | s :: rest =>
    match s.service.stopResult with
    | .error e => (Event.stop s.name :: (stopSeq rest).1, e :: (stopSeq rest).2)
    | .ok _ => (Event.stop s.name :: (stopSeq rest).1, (stopSeq rest).2)

/-- Stop failure of a service, if any; used to state which errors the
aggregate collects. -/
def stopErrOf (s : NamedService) : Option Err :=
  match s.service.stopResult with
  | .error e => some e
  | .ok _ => none

/-- Modelled from the spec: Registry Start. Starts each service in
registered order, synchronously, stopping at the first failure. -/
def Registry.Start (r : Registry) : List Event × Res Unit :=
  startSeq r.services

/-- Modelled from the spec: Registry Stop. On the first call, stops each
service in reverse registered order, collecting individual failures into
an aggregate error; after a completed Stop, a further Stop is a no-op that
re-invokes no service-level stop logic. Returns the updated registry, the
emitted events, and the aggregate outcome. -/
def Registry.Stop (r : Registry) : Registry × List Event × Res Unit :=
  if r.stopped then (r, [], .ok ())
  else
    ({ r with stopped := true }, (stopSeq r.services.reverse).1,
      if (stopSeq r.services.reverse).2.isEmpty then .ok ()
      else .error (.aggregate (stopSeq r.services.reverse).2))

/-- One schema migration step: a name (for already-applied detection) and
the schema transformation it performs, which may fail. -/
structure MigrationStep where
  name : String
  run : Nat → Res Nat

/-- Database state seen by the migrator: current schema plus the set of
migration names already applied. -/
structure MigDB where
  schema : Nat
  applied : List String

/-- Modelled from the spec: the sqlmigrator loop. Walks the migration
steps in order; a step whose name is recorded as applied is skipped,
otherwise it runs against the schema and, on success, is recorded as
applied; a failure aborts, leaving the state at the last completed step.
The accumulator counts the steps actually applied in this run. -/
def migrateLoop : List MigrationStep → MigDB → Nat → Res (MigDB × Nat)
  | [], db, k => .ok (db, k)
  | m :: rest, db, k =>
    if m.name ∈ db.applied then migrateLoop rest db k
    else
      match m.run db.schema with
      | .error e => .error e
      | .ok s => migrateLoop rest ⟨s, m.name :: db.applied⟩ (k + 1)

/-- Modelled from the spec: sqlmigrator Migrate applied to a migration
sequence and a database state; returns the new state and the number of
steps applied in this run. -/
def Migrate (steps : List MigrationStep) (db : MigDB) : Res (MigDB × Nat) :=
  migrateLoop steps db 0

/-- The assembled system object, mirroring the SigNoz struct: the
Registry plus every constructed provider. -/
structure SigNoz where
  registry : Registry
  instrumentation : Instrumentation
  cache : Cache
  web : Web
  sqlstore : SQLStore
  telemetrystore : TelemetryStore
  prometheus : Prometheus
  alertmanager : Alertmanager
  zeus : Zeus
  licensing : Licensing
  emailing : Emailing
  modules : Modules
  handlers : Handlers

/-- Bootstrap events: each step of New is recorded as attempted-and-
succeeded (ok) or attempted-and-failed (fail, with the error the step
returned). -/
inductive BEvent where
  | ok (label : String)
  | fail (label : String) (e : Err)

/-- Label of a bootstrap event. -/
def BEvent.label : BEvent → String
  | .ok l => l
  | .fail l _ => l

/-- Collaborator functions called by New whose bodies live outside the
provided source file: instrumentation.New, the dynamically generated
factory maps (NewPrometheusProviderFactories, NewSQLMigrationProviderFactories,
NewAlertmanagerProviderFactories), sqlmigration.New, the sqlmigrator run,
and the pure module/handler constructors. New is parametric in them, as it
is in Go through package imports. -/
structure Deps where
  instrumentationNew : Ctx → InstrumentationConfig → Res Instrumentation
  prometheusProviderFactories :
    TelemetryStore → NamedMap Prometheus PrometheusConfig
  sqlmigrationProviderFactories : SQLStore → List MigrationStep
  sqlmigrationNew :
    Ctx → ProviderSettings → SQLMigrationConfig → List MigrationStep →
      Res (List MigrationStep)
  sqlmigratorMigrate :
    Ctx → ProviderSettings → SQLStore → List MigrationStep →
      SQLMigratorConfig → Res Unit
  alertmanagerProviderFactories :
    SQLStore → NamedMap Alertmanager AlertmanagerConfig
  newModules : SQLStore → JWT → Emailing → ProviderSettings → Modules
  newHandlers : Modules → Handlers

/-- One bootstrap step of New: evaluate the step's result; on error,
record the failure and return that error at once (the Go early return
"if err != nil: return nil, err"); on success, record the success and
continue with the constructed value. -/
def step {α β : Type} (label : String) (r : Res α)
    (k : α → List BEvent × Res β) : List BEvent × Res β :=
  match r with
  | .error e => ([BEvent.fail label e], .error e)
  | .ok a => (BEvent.ok label :: (k a).1, (k a).2)

/-- The fixed straight-line order of the bootstrap steps of New, as they
appear in signoz.go. -/
def bootstrapOrder : List String :=
  ["instrumentation", "zeus", "emailing", "cache", "web", "sqlstore",
   "telemetrystore", "prometheus", "sqlmigration", "migrate",
   "alertmanager", "licensing", "modules", "handlers", "registry"]

/-- The bootstrap function New of pkg/signoz/signoz.go, instrumented with
a trace of attempted steps. Mirrors the source line by line: each step is
an early-return on error; emailing, cache, web, sqlstore, telemetrystore
are selected from their named factory maps by the provider name in their
config slice; prometheus is selected from a factory map generated from the
already constructed telemetrystore; migrations run against the sqlstore;
alertmanager is selected from a factory map generated from the sqlstore;
licensing comes from the factory produced by the callback applied to the
sqlstore and zeus; modules and handlers are pure; the Registry registers
instrumentation, alertmanager and licensing. -/
def NewT (d : Deps) (ctx : Ctx) (config : Config) (jwt : JWT)
    (zeusConfig : ZeusConfig)
    (zeusProviderFactory : ProviderFactory Zeus ZeusConfig)
    (licenseConfig : LicensingConfig)
    (licenseProviderFactoryCb :
      SQLStore → Zeus → ProviderFactory Licensing LicensingConfig)
    (emailingProviderFactories : NamedMap Emailing EmailingConfig)
    (cacheProviderFactories : NamedMap Cache CacheConfig)
    (webProviderFactories : NamedMap Web WebConfig)
    (sqlstoreProviderFactories : NamedMap SQLStore SQLStoreConfig)
    (telemetrystoreProviderFactories :
      NamedMap TelemetryStore TelemetryStoreConfig) :
    List BEvent × Res SigNoz :=
  step "instrumentation" (d.instrumentationNew ctx config.Instrumentation)
    fun instrumentation =>
  step "zeus"
    (zeusProviderFactory.new ctx instrumentation.providerSettings zeusConfig)
    fun zeus =>
  step "emailing"
    (NewProviderFromNamedMap ctx instrumentation.providerSettings
      config.Emailing emailingProviderFactories config.Emailing.provider)
    fun emailing =>
  step "cache"
    (NewProviderFromNamedMap ctx instrumentation.providerSettings
      config.Cache cacheProviderFactories config.Cache.provider)
    fun cache =>
  step "web"
    (NewProviderFromNamedMap ctx instrumentation.providerSettings
      config.Web webProviderFactories config.Web.provider)
    fun web =>
  step "sqlstore"
    (NewProviderFromNamedMap ctx instrumentation.providerSettings
      config.SQLStore sqlstoreProviderFactories config.SQLStore.provider)
    fun sqlstore =>
  step "telemetrystore"
    (NewProviderFromNamedMap ctx instrumentation.providerSettings
      config.TelemetryStore telemetrystoreProviderFactories
      config.TelemetryStore.provider)
    fun telemetrystore =>
  step "prometheus"
    (NewProviderFromNamedMap ctx instrumentation.providerSettings
      config.Prometheus (d.prometheusProviderFactories telemetrystore)
      config.Prometheus.provider)
    fun prometheus =>
  step "sqlmigration"
    (d.sqlmigrationNew ctx instrumentation.providerSettings
      config.SQLMigration (d.sqlmigrationProviderFactories sqlstore))
    fun sqlmigrations =>
  step "migrate"
    (d.sqlmigratorMigrate ctx instrumentation.providerSettings sqlstore
      sqlmigrations config.SQLMigrator)
    fun _ =>
  step "alertmanager"
    (NewProviderFromNamedMap ctx instrumentation.providerSettings
      config.Alertmanager (d.alertmanagerProviderFactories sqlstore)
      config.Alertmanager.provider)
    fun alertmanager =>
  step "licensing"
    ((licenseProviderFactoryCb sqlstore zeus).new ctx
      instrumentation.providerSettings licenseConfig)
    fun licensing =>
  step "modules"
    (Except.ok (d.newModules sqlstore jwt emailing
      instrumentation.providerSettings))
    fun modules =>
  step "handlers" (Except.ok (d.newHandlers modules))
    fun handlers =>
  step "registry"
    (NewRegistry instrumentation.logger
      [⟨"instrumentation", instrumentation.service⟩,
       ⟨"alertmanager", alertmanager.service⟩,
       ⟨"licensing", licensing.service⟩])
    fun registry =>
  ([], .ok
    { registry := registry
      instrumentation := instrumentation
      cache := cache
      web := web
      sqlstore := sqlstore
      telemetrystore := telemetrystore
      prometheus := prometheus
      alertmanager := alertmanager
      zeus := zeus
      licensing := licensing
      emailing := emailing
      modules := modules
      handlers := handlers })

/-- Labels of a bootstrap trace. -/
def labelsOf (t : List BEvent) : List String :=
  t.map BEvent.label

/-- Ordering discipline of an instrumented early-return chain: the labels
of the attempted steps are always an initial segment of the given order, a
successful result means every step of the order was attempted, and every
attempted step other than the last one succeeded (so no later step ever
runs before an earlier one has succeeded). -/
def ChainOK {β : Type} (order : List String) (c : List BEvent × Res β) :
    Prop :=
  labelsOf c.1 = order.take c.1.length
  ∧ (∀ b, c.2 = .ok b → labelsOf c.1 = order)
  ∧ (∀ ev ∈ c.1.dropLast, ∃ l, ev = BEvent.ok l)

/-- Failure discipline of an instrumented early-return chain: whenever the
chain returns an error, that error is exactly the one produced by the last
attempted step, every earlier step succeeded, and nothing runs after the
failing step (the trace ends at it). -/
def FailsCleanly {β : Type} (c : List BEvent × Res β) : Prop :=
  ∀ e, c.2 = .error e →
    ∃ t l, c.1 = t ++ [BEvent.fail l e]
      ∧ ∀ ev ∈ t, ∃ lo, ev = BEvent.ok lo

/-- Service stub whose start and stop both succeed, for concrete runs. -/
def svcOK : Service :=
  ⟨.ok (), .ok ()⟩

/-- Concrete instrumentation instance for concrete runs. -/
def instr0 : Instrumentation :=
  ⟨0, ⟨0⟩, svcOK⟩

/-- Concrete context for concrete runs. -/
def ctx0 : Ctx :=
  ⟨0⟩

/-- Concrete JWT for concrete runs. -/
def jwt0 : JWT :=
  ⟨0⟩

/-- Concrete collaborator functions for concrete runs: everything
succeeds, and the dynamically generated factory maps offer one provider
each. -/
def deps0 : Deps :=
  ⟨fun _ _ => .ok instr0,
   fun _ => ⟨"prometheus", [("prometheus", ⟨fun _ _ _ => .ok ⟨1⟩⟩)]⟩,
   fun _ => [],
   fun _ _ _ steps => .ok steps,
   fun _ _ _ _ _ => .ok (),
   fun _ => ⟨"alertmanager", [("legacy", ⟨fun _ _ _ => .ok ⟨2, svcOK⟩⟩)]⟩,
   fun _ _ _ _ => ⟨3⟩,
   fun _ => ⟨4⟩⟩

/-- Concrete zeus factory that succeeds. -/
def zeusFactory0 : ProviderFactory Zeus ZeusConfig :=
  ⟨fun _ _ _ => .ok ⟨5⟩⟩

/-- Concrete zeus factory that fails with an opaque construction error. -/
def zeusFactoryBad : ProviderFactory Zeus ZeusConfig :=
  ⟨fun _ _ _ => .error (.failure "zeus down")⟩

/-- Concrete licensing factory callback that succeeds. -/
def licCb0 : SQLStore → Zeus → ProviderFactory Licensing LicensingConfig :=
  fun _ _ => ⟨fun _ _ _ => .ok ⟨6, svcOK⟩⟩

/-- Concrete emailing factory map with a single smtp provider. -/
def emailingMap0 : NamedMap Emailing EmailingConfig :=
  ⟨"emailing", [("smtp", ⟨fun _ _ _ => .ok ⟨7⟩⟩)]⟩

/-- Concrete cache factory map with a single memory provider. -/
def cacheMap0 : NamedMap Cache CacheConfig :=
  ⟨"cache", [("memory", ⟨fun _ _ _ => .ok ⟨8⟩⟩)]⟩

/-- Concrete web factory map with a single router provider. -/
def webMap0 : NamedMap Web WebConfig :=
  ⟨"web", [("router", ⟨fun _ _ _ => .ok ⟨9⟩⟩)]⟩

/-- Concrete sqlstore factory map with a single sqlite provider. -/
def sqlMap0 : NamedMap SQLStore SQLStoreConfig :=
  ⟨"sqlstore", [("sqlite", ⟨fun _ _ _ => .ok ⟨10⟩⟩)]⟩

/-- Concrete telemetrystore factory map with a single clickhouse
provider. -/
def teleMap0 : NamedMap TelemetryStore TelemetryStoreConfig :=
  ⟨"telemetrystore", [("clickhouse", ⟨fun _ _ _ => .ok ⟨11⟩⟩)]⟩

/-- Concrete configuration selecting the provider present in each map. -/
def config0 : Config :=
  ⟨⟨0⟩, ⟨"smtp", 0⟩, ⟨"memory", 0⟩, ⟨"router", 0⟩, ⟨"sqlite", 0⟩,
   ⟨"clickhouse", 0⟩, ⟨"prometheus", 0⟩, ⟨0⟩, ⟨0⟩, ⟨"legacy", 0⟩⟩

/-- Concrete configuration selecting redis for cache, which is absent
from the cache factory map. -/
def configBadCache : Config :=
  { config0 with Cache := ⟨"redis", 0⟩ }

/-- Concrete zeus configuration. -/
def zc0 : ZeusConfig :=
  ⟨0⟩

/-- Concrete licensing configuration. -/
def lc0 : LicensingConfig :=
  ⟨0⟩

/-- Fully successful concrete bootstrap run. -/
def newOK : List BEvent × Res SigNoz :=
  NewT deps0 ctx0 config0 jwt0 zc0 zeusFactory0 lc0 licCb0 emailingMap0
    cacheMap0 webMap0 sqlMap0 teleMap0

/-- Concrete bootstrap run whose cache selection is absent from the cache
factory map. -/
def newBad : List BEvent × Res SigNoz :=
  NewT deps0 ctx0 configBadCache jwt0 zc0 zeusFactory0 lc0 licCb0
    emailingMap0 cacheMap0 webMap0 sqlMap0 teleMap0

/-- Concrete bootstrap run whose zeus factory fails. -/
def newZeusFail : List BEvent × Res SigNoz :=
  NewT deps0 ctx0 config0 jwt0 zc0 zeusFactoryBad lc0 licCb0 emailingMap0
    cacheMap0 webMap0 sqlMap0 teleMap0

/-- Concrete two-service registry whose services all start and stop
successfully. -/
def reg0 : Registry :=
  ⟨⟨0⟩, [⟨"a", svcOK⟩, ⟨"b", svcOK⟩], false⟩

/-- Concrete migration step that bumps the schema. -/
def mig0 : MigrationStep :=
  ⟨"m1", fun s => .ok (s + 1)⟩

/-- An exhausted chain (no trace, a final result) trivially satisfies the
ordering discipline for the empty remaining order. -/
theorem chainOK_nil {β : Type} (r : Res β) :
    ChainOK [] (([], r) : List BEvent × Res β) := by
  refine ⟨rfl, fun b _ => rfl, ?_⟩
  intro ev hev
  simp only [List.dropLast_nil] at hev
  exact absurd hev (List.not_mem_nil ev)

/-- A step preserves the ordering discipline: prepending one early-return
step to a chain that follows the remaining order yields a chain that
follows the extended order. -/
theorem chainOK_step {α β : Type} {order : List String} {l : String}
    {r : Res α} {k : α → List BEvent × Res β}
    (h : ∀ a, ChainOK order (k a)) : ChainOK (l :: order) (step l r k) := by
  cases r with
  | error e =>
    refine ⟨?_, ?_, ?_⟩
    · simp [step, labelsOf, BEvent.label]
    · intro b hb
      simp [step] at hb
    · intro ev hev
      simp [step] at hev
  | ok a =>
    obtain ⟨h1, h2, h3⟩ := h a
    refine ⟨?_, ?_, ?_⟩
    · show labelsOf (BEvent.ok l :: (k a).1)
        = (l :: order).take (BEvent.ok l :: (k a).1).length
      simp only [labelsOf, List.map_cons, List.length_cons,
        List.take_succ_cons, BEvent.label]
      simp only [labelsOf] at h1
      rw [h1]
    · intro b hb
      show labelsOf (BEvent.ok l :: (k a).1) = l :: order
      have hko := h2 b hb
      simp only [labelsOf, List.map_cons, BEvent.label]
      simp only [labelsOf] at hko
      rw [hko]
    · intro ev hev
      show ∃ lo, ev = BEvent.ok lo
      rcases hk : (k a).1 with _ | ⟨x, xs⟩
      · have : (step l (.ok a) k).1 = [BEvent.ok l] := by
          show BEvent.ok l :: (k a).1 = [BEvent.ok l]
          rw [hk]
        rw [this] at hev
        simp only [List.dropLast_single] at hev
        exact absurd hev (List.not_mem_nil ev)
      · have : (step l (.ok a) k).1 = BEvent.ok l :: x :: xs := by
          show BEvent.ok l :: (k a).1 = BEvent.ok l :: x :: xs
          rw [hk]
        rw [this, List.dropLast_cons₂, List.mem_cons] at hev
        rcases hev with hev | hev
        · exact ⟨l, hev⟩
        · exact h3 ev (by rw [hk]; exact hev)

/-- An exhausted chain with a successful final result never errors, so it
trivially fails cleanly. -/
theorem failsCleanly_nil {β : Type} (b : β) :
    FailsCleanly (([], .ok b) : List BEvent × Res β) := by
  intro e he
  exact Except.noConfusion he

/-- A step preserves the failure discipline: either the step itself fails
and is the only (failing) entry of the trace, or it succeeds and the
failure, if any, lies in the clean continuation. -/
theorem failsCleanly_step {α β : Type} {l : String} {r : Res α}
    {k : α → List BEvent × Res β} (h : ∀ a, FailsCleanly (k a)) :
    FailsCleanly (step l r k) := by
  cases r with
  | error e0 =>
    intro e he
    have he0 : e0 = e := by
      have : (step l (.error e0) k).2 = Except.error e0 := rfl
      rw [this] at he
      exact (Except.error.injEq _ _).mp he
    refine ⟨[], l, ?_, ?_⟩
    · show [BEvent.fail l e0] = [] ++ [BEvent.fail l e]
      rw [he0]
      rfl
    · intro ev hev
      exact absurd hev (List.not_mem_nil ev)
  | ok a =>
    intro e he
    have he2 : (k a).2 = .error e := he
    obtain ⟨t, lf, ht, hall⟩ := h a e he2
    refine ⟨BEvent.ok l :: t, lf, ?_, ?_⟩
    · show BEvent.ok l :: (k a).1 = (BEvent.ok l :: t) ++ [BEvent.fail lf e]
      rw [ht]
      rfl
    · intro ev hev
      rcases List.mem_cons.mp hev with hev | hev
      · exact ⟨l, hev⟩
      · exact hall ev hev

section Bootstrap

variable (d : Deps) (ctx : Ctx) (config : Config) (jwt : JWT)
  (zc : ZeusConfig) (zf : ProviderFactory Zeus ZeusConfig)
  (lc : LicensingConfig)
  (lcb : SQLStore → Zeus → ProviderFactory Licensing LicensingConfig)
  (em : NamedMap Emailing EmailingConfig)
  (ca : NamedMap Cache CacheConfig)
  (we : NamedMap Web WebConfig)
  (sq : NamedMap SQLStore SQLStoreConfig)
  (te : NamedMap TelemetryStore TelemetryStoreConfig)

/-- Helper: every run of the instrumented bootstrap satisfies the chain
ordering discipline with respect to the fixed bootstrap order. -/
theorem newT_chainOK :
    ChainOK bootstrapOrder (NewT d ctx config jwt zc zf lc lcb em ca we sq te) := by
  unfold NewT bootstrapOrder
  apply chainOK_step; intro instrumentation
  apply chainOK_step; intro zeus
  apply chainOK_step; intro emailing
  apply chainOK_step; intro cache
  apply chainOK_step; intro web
  apply chainOK_step; intro sqlstore
  apply chainOK_step; intro telemetrystore
  apply chainOK_step; intro prometheus
  apply chainOK_step; intro sqlmigrations
  apply chainOK_step; intro u
  apply chainOK_step; intro alertmanager
  apply chainOK_step; intro licensing
  apply chainOK_step; intro modules
  apply chainOK_step; intro handlers
  apply chainOK_step; intro registry
  exact chainOK_nil _

/-- C1: New constructs components in the fixed straight-line order of the
source (instrumentation, zeus, emailing, cache, web, sqlstore,
telemetrystore, prometheus, sqlmigration, migrate, alertmanager,
licensing, modules, handlers, registry): on every input the attempted
steps form an initial segment of that order, a successful bootstrap
attempted all of them, and every attempted step except possibly the last
one succeeded, so no later step runs before an earlier one has
succeeded. -/
theorem new_follows_bootstrap_order :
    labelsOf (NewT d ctx config jwt zc zf lc lcb em ca we sq te).1
      = bootstrapOrder.take
          (NewT d ctx config jwt zc zf lc lcb em ca we sq te).1.length
    ∧ (∀ s, (NewT d ctx config jwt zc zf lc lcb em ca we sq te).2 = .ok s →
        labelsOf (NewT d ctx config jwt zc zf lc lcb em ca we sq te).1
          = bootstrapOrder)
    ∧ (∀ ev ∈ (NewT d ctx config jwt zc zf lc lcb em ca we sq te).1.dropLast,
        ∃ l, ev = BEvent.ok l) :=
  newT_chainOK d ctx config jwt zc zf lc lcb em ca we sq te

/-- C2: if any bootstrap step fails, New returns exactly that step's
error, the failing step is the last attempted one (no subsequent
construction step runs), and every earlier step succeeded. The result
type Except means the error case carries no SigNoz value at all, the
embedding of returning a nil pointer and never a partially assembled
object. -/
theorem new_aborts_on_first_error :
    ∀ e, (NewT d ctx config jwt zc zf lc lcb em ca we sq te).2 = .error e →
      ∃ t l, (NewT d ctx config jwt zc zf lc lcb em ca we sq te).1
          = t ++ [BEvent.fail l e]
        ∧ ∀ ev ∈ t, ∃ lo, ev = BEvent.ok lo := by
  have h : FailsCleanly (NewT d ctx config jwt zc zf lc lcb em ca we sq te) := by
    unfold NewT
    apply failsCleanly_step; intro instrumentation
    apply failsCleanly_step; intro zeus
    apply failsCleanly_step; intro emailing
    apply failsCleanly_step; intro cache
    apply failsCleanly_step; intro web
    apply failsCleanly_step; intro sqlstore
    apply failsCleanly_step; intro telemetrystore
    apply failsCleanly_step; intro prometheus
    apply failsCleanly_step; intro sqlmigrations
    apply failsCleanly_step; intro u
    apply failsCleanly_step; intro alertmanager
    apply failsCleanly_step; intro licensing
    apply failsCleanly_step; intro modules
    apply failsCleanly_step; intro handlers
    apply failsCleanly_step; intro registry
    exact failsCleanly_nil _
  exact h

end Bootstrap

/-- Witness for C1: on the concrete fully successful run, the attempted
labels are exactly the whole bootstrap order. -/
theorem new_follows_bootstrap_order_witness :
    labelsOf newOK.1
      = bootstrapOrder.take newOK.1.length :=
  (new_follows_bootstrap_order deps0 ctx0 config0 jwt0 zc0 zeusFactory0 lc0
    licCb0 emailingMap0 cacheMap0 webMap0 sqlMap0 teleMap0).1

/-- Witness for C2: the concrete run whose cache selection is the unknown
name redis fails with the NotFound error naming cache and redis, its
trace ends at the failing step, and all earlier steps succeeded. -/
theorem new_aborts_on_first_error_witness :
    ∃ t l, newBad.1 = t ++ [BEvent.fail l (Err.notFound "cache" "redis")]
      ∧ ∀ ev ∈ t, ∃ lo, ev = BEvent.ok lo :=
  new_aborts_on_first_error deps0 ctx0 configBadCache jwt0 zc0 zeusFactory0
    lc0 licCb0 emailingMap0 cacheMap0 webMap0 sqlMap0 teleMap0
    (Err.notFound "cache" "redis") rfl

/-- Helper: whether a name lookup fails depends only on the keys of a
factory list, not on the factories stored under them. -/
theorem find_none_of_keys_eq {T C : Type} (nm : String)
    (fs gs : List (String × ProviderFactory T C))
    (hk : fs.map Prod.fst = gs.map Prod.fst)
    (h : gs.find? (fun p => p.1 == nm) = none) :
    fs.find? (fun p => p.1 == nm) = none := by
  induction fs generalizing gs with
  | nil => rfl
  | cons f fs ih =>
    cases gs with
    | nil => simp at hk
    | cons g gs =>
      simp only [List.map_cons, List.cons.injEq] at hk
      obtain ⟨h1, h2⟩ := hk
      rw [List.find?_cons] at h ⊢
      cases hb : (g.1 == nm) with
      | true =>
        rw [hb] at h
        exact Option.noConfusion h
      | false =>
        rw [hb] at h
        have hfb : (f.1 == nm) = false := by
          rw [h1]
          exact hb
        rw [hfb]
        exact ih gs h2 h

/-- C3: selecting a provider name absent from a named factory map fails
with the NotFound error identifying the component and the unknown name,
and no factory is invoked: the same error results whatever factories the
map holds under the same keys, so nothing is constructed. -/
theorem namedMap_absent_notFound {T C : Type} (ctx : Ctx)
    (settings : ProviderSettings) (config : C) (m : NamedMap T C)
    (nm : String) (h : m.get nm = none) :
    NewProviderFromNamedMap ctx settings config m nm
      = .error (.notFound m.component nm)
    ∧ ∀ fs : List (String × ProviderFactory T C),
        fs.map Prod.fst = m.factories.map Prod.fst →
        NewProviderFromNamedMap ctx settings config ⟨m.component, fs⟩ nm
          = .error (.notFound m.component nm) := by
  have hfind : m.factories.find? (fun p => p.1 == nm) = none := by
    unfold NamedMap.get at h
    exact Option.map_eq_none'.mp h
  constructor
  · unfold NewProviderFromNamedMap NamedMap.get
    rw [hfind]
    rfl
  · intro fs hkeys
    have hfs : fs.find? (fun p => p.1 == nm) = none :=
      find_none_of_keys_eq nm fs m.factories hkeys hfind
    unfold NewProviderFromNamedMap NamedMap.get
    simp only [hfs, Option.map_none']

/-- Witness for C3: looking up redis in the concrete cache factory map
that only holds memory yields the NotFound error naming cache and
redis. -/
theorem namedMap_absent_notFound_witness :
    NewProviderFromNamedMap ctx0 0 (⟨"redis", 0⟩ : CacheConfig) cacheMap0
      "redis" = .error (.notFound "cache" "redis") :=
  (namedMap_absent_notFound ctx0 0 (⟨"redis", 0⟩ : CacheConfig) cacheMap0
    "redis" rfl).1

/-- C4: for a valid selection the selector returns exactly the instance
produced by the matching factory invoked with exactly the given context,
shared settings and config; the config value is passed through unchanged
to the factory (the embedding is pure, so the selector cannot mutate
it). -/
theorem namedMap_present_exact {T C : Type} (ctx : Ctx)
    (settings : ProviderSettings) (config : C) (m : NamedMap T C)
    (nm : String) (f : ProviderFactory T C) (h : m.get nm = some f) :
    ∀ t, NewProviderFromNamedMap ctx settings config m nm = .ok t
      ↔ f.new ctx settings config = .ok t := by
  intro t
  unfold NewProviderFromNamedMap
  rw [h]
  cases hf : f.new ctx settings config with
  | error e => simp [hf]
  | ok v => simp [hf]

/-- Witness for C4: selecting memory from the concrete cache factory map
returns exactly the instance that factory produces. -/
theorem namedMap_present_exact_witness :
    NewProviderFromNamedMap ctx0 0 (⟨"memory", 0⟩ : CacheConfig) cacheMap0
      "memory" = .ok ⟨8⟩ :=
  (namedMap_present_exact ctx0 0 (⟨"memory", 0⟩ : CacheConfig) cacheMap0
    "memory" ⟨fun _ _ _ => .ok ⟨8⟩⟩ rfl ⟨8⟩).mpr rfl

/-- Helper: when every service starts successfully, the start loop emits
one start event per service in list order and succeeds. -/
theorem startSeq_all_ok (l : List NamedService)
    (h : ∀ s ∈ l, s.service.startResult = .ok ()) :
    startSeq l = (l.map (fun s => Event.start s.name), .ok ()) := by
  induction l with
  | nil => rfl
  | cons s rest ih =>
    have hs := h s (List.mem_cons_self _ _)
    have hrest := ih (fun x hx => h x (List.mem_cons_of_mem _ hx))
    unfold startSeq
    rw [hs, hrest]
    rfl

/-- Helper: the stop loop emits one stop event per service in list order
and collects exactly the stop failures of the failing services. -/
theorem stopSeq_spec (l : List NamedService) :
    stopSeq l = (l.map (fun s => Event.stop s.name), l.filterMap stopErrOf) := by
  induction l with
  | nil => rfl
  | cons s rest ih =>
    unfold stopSeq
    cases hs : s.service.stopResult with
    | error e =>
      rw [ih]
      simp [List.filterMap_cons, stopErrOf, hs]
    | ok u =>
      rw [ih]
      simp [List.filterMap_cons, stopErrOf, hs]

/-- C5: on a registry that has not been stopped, Start starts every
service synchronously in registration order (each service's start
succeeding, as with instrumented stubs), and Stop stops every service
synchronously in the exact reverse of registration order, collecting
every individual stop failure into one aggregate error instead of
short-circuiting on the first. -/
theorem registry_start_stop_order (r : Registry) (hr : r.stopped = false)
    (hstart : ∀ s ∈ r.services, s.service.startResult = .ok ()) :
    Registry.Start r
      = (r.services.map (fun s => Event.start s.name), .ok ())
    ∧ (Registry.Stop r).2.1
      = (r.services.map (fun s => Event.stop s.name)).reverse
    ∧ (Registry.Stop r).2.2 =
        (if (r.services.reverse.filterMap stopErrOf).isEmpty then .ok ()
         else .error (.aggregate (r.services.reverse.filterMap stopErrOf))) := by
  refine ⟨startSeq_all_ok r.services hstart, ?_, ?_⟩
  · simp [Registry.Stop, hr, stopSeq_spec, List.map_reverse]
  · unfold Registry.Stop
    rw [hr, stopSeq_spec]
    simp only [Bool.false_eq_true, if_false]

/-- Witness for C5: on the concrete two-service registry, Start emits
start a then start b and succeeds, and Stop emits stop b then stop a. -/
theorem registry_start_stop_order_witness :
    Registry.Start reg0 = ([Event.start "a", Event.start "b"], .ok ())
    ∧ (Registry.Stop reg0).2.1 = [Event.stop "b", Event.stop "a"] := by
  have h := registry_start_stop_order reg0 rfl (by
    intro s hs
    rcases List.mem_cons.mp hs with rfl | hs
    · rfl
    · rcases List.mem_cons.mp hs with rfl | hs
      · rfl
      · exact absurd hs (List.not_mem_nil s))
  exact ⟨h.1.trans rfl, (h.2.1).trans rfl⟩

/-- C9: a second Stop after a completed Stop re-invokes no service-level
stop logic (it emits no events), acts as a successful no-op, and leaves
the registry unchanged, for every registry. -/
theorem registry_stop_idempotent (r : Registry) :
    Registry.Stop ((Registry.Stop r).1) = ((Registry.Stop r).1, [], .ok ()) := by
  by_cases hr : r.stopped
  · simp [Registry.Stop, hr]
  · simp [Registry.Stop, hr]

/-- Helper: findDup returns none exactly on duplicate-free lists. -/
theorem findDup_eq_none_iff (l : List String) :
    findDup l = none ↔ l.Nodup := by
  induction l with
  | nil => simp [findDup]
  | cons n rest ih =>
    by_cases h : n ∈ rest
    · simp [findDup, h]
    · simp [findDup, h, ih]

/-- C7: constructing a Registry from services among which two share a
name fails with a DuplicateName error, and no Registry value is produced
by the construction, so nothing is ever started from it. -/
theorem newRegistry_duplicate_name (logger : Logger)
    (services : List NamedService)
    (h : ¬ (services.map (fun s => s.name)).Nodup) :
    ∃ n, NewRegistry logger services = .error (.duplicateName n)
      ∧ ∀ r, NewRegistry logger services ≠ .ok r := by
  cases hd : findDup (services.map (fun s => s.name)) with
  | none => exact absurd ((findDup_eq_none_iff _).mp hd) h
  | some n =>
    refine ⟨n, ?_, ?_⟩
    · unfold NewRegistry
      rw [hd]
    · intro r hr
      unfold NewRegistry at hr
      rw [hd] at hr
      exact Except.noConfusion hr

/-- Witness for C7: two services both named a make NewRegistry fail with
a DuplicateName error and produce no registry. -/
theorem newRegistry_duplicate_name_witness :
    ∃ n, NewRegistry ⟨0⟩ [⟨"a", svcOK⟩, ⟨"a", svcOK⟩]
        = .error (.duplicateName n)
      ∧ ∀ r, NewRegistry ⟨0⟩ [⟨"a", svcOK⟩, ⟨"a", svcOK⟩] ≠ .ok r :=
  newRegistry_duplicate_name ⟨0⟩ [⟨"a", svcOK⟩, ⟨"a", svcOK⟩] (by simp)

/-- Helper: a successful migrator run records every step of the sequence
as applied and never forgets previously applied names. -/
theorem migrateLoop_applied (steps : List MigrationStep) :
    ∀ (db db' : MigDB) (k n : Nat),
      migrateLoop steps db k = .ok (db', n) →
      (∀ m ∈ steps, m.name ∈ db'.applied)
        ∧ ∀ x ∈ db.applied, x ∈ db'.applied := by
  induction steps with
  | nil =>
    intro db db' k n h
    unfold migrateLoop at h
    injection h with h2
    have hdb : db = db' := congrArg Prod.fst h2
    subst hdb
    exact ⟨fun m hm => absurd hm (List.not_mem_nil m), fun x hx => hx⟩
  | cons m rest ih =>
    intro db db' k n h
    unfold migrateLoop at h
    by_cases hm : m.name ∈ db.applied
    · rw [if_pos hm] at h
      obtain ⟨h1, h2⟩ := ih db db' k n h
      refine ⟨?_, h2⟩
      intro x hx
      rcases List.mem_cons.mp hx with rfl | hx
      · exact h2 x.name hm
      · exact h1 x hx
    · rw [if_neg hm] at h
      cases hr : m.run db.schema with
      | error e =>
        rw [hr] at h
        exact Except.noConfusion h
      | ok s =>
        rw [hr] at h
        obtain ⟨h1, h2⟩ := ih ⟨s, m.name :: db.applied⟩ db' (k + 1) n h
        refine ⟨?_, ?_⟩
        · intro x hx
          rcases List.mem_cons.mp hx with rfl | hx
          · exact h2 x.name (List.mem_cons_self _ _)
          · exact h1 x hx
        · intro x hx
          exact h2 x (List.mem_cons_of_mem _ hx)

/-- Helper: when every step of the sequence is already recorded as
applied, the migrator run skips everything, applying zero steps and
succeeding with the state unchanged. -/
theorem migrateLoop_skips (steps : List MigrationStep) :
    ∀ (db : MigDB) (k : Nat), (∀ m ∈ steps, m.name ∈ db.applied) →
      migrateLoop steps db k = .ok (db, k) := by
  induction steps with
  | nil =>
    intro db k _
    rfl
  | cons m rest ih =>
    intro db k h
    unfold migrateLoop
    rw [if_pos (h m (List.mem_cons_self _ _))]
    exact ih db k (fun x hx => h x (List.mem_cons_of_mem _ hx))

/-- C8: applying the same migration sequence twice is idempotent: after a
first successful Migrate run, a second run applies zero additional steps
and reports success with the database state unchanged. -/
theorem migrate_idempotent (steps : List MigrationStep) (db db' : MigDB)
    (n : Nat) (h : Migrate steps db = .ok (db', n)) :
    Migrate steps db' = .ok (db', 0) := by
  obtain ⟨h1, _⟩ := migrateLoop_applied steps db db' 0 n h
  exact migrateLoop_skips steps db' 0 h1

/-- Witness for C8: one concrete migration applied to a fresh state runs
once; rerunning the same sequence applies zero steps and succeeds. -/
theorem migrate_idempotent_witness :
    Migrate [mig0] ⟨0, []⟩ = .ok (⟨1, ["m1"]⟩, 1)
    ∧ Migrate [mig0] ⟨1, ["m1"]⟩ = .ok (⟨1, ["m1"]⟩, 0) :=
  ⟨rfl, migrate_idempotent [mig0] ⟨0, []⟩ ⟨1, ["m1"]⟩ 1 rfl⟩

/-- Helper: a successful chain result means the first step succeeded and
the continuation succeeded with the same final value. -/
theorem step_ok_inv {α β : Type} {l : String} {r : Res α}
    {k : α → List BEvent × Res β} {b : β}
    (h : (step l r k).2 = .ok b) : ∃ a, r = .ok a ∧ (k a).2 = .ok b := by
  cases r with
  | error e => exact Except.noConfusion h
  | ok a => exact ⟨a, rfl, h⟩

/-- Helper: a fail event labelled differently from a step's own label can
only come from the step's continuation, which was entered after the step
succeeded. -/
theorem step_fail_mem_ne {α β : Type} {lz l : String} {e : Err}
    {r : Res α} {k : α → List BEvent × Res β} (hne : lz ≠ l)
    (h : BEvent.fail lz e ∈ (step l r k).1) :
    ∃ a, r = .ok a ∧ BEvent.fail lz e ∈ (k a).1 := by
  cases r with
  | error e0 =>
    have h2 : BEvent.fail lz e ∈ [BEvent.fail l e0] := h
    have h3 := List.mem_singleton.mp h2
    injection h3 with h4 h5
    exact absurd h4 hne
  | ok a =>
    have h2 : BEvent.fail lz e ∈ BEvent.ok l :: (k a).1 := h
    rcases List.mem_cons.mp h2 with h3 | h3
    · exact BEvent.noConfusion h3
    · exact ⟨a, rfl, h3⟩

/-- Helper: a fail event carrying a step's own label means either the
step itself failed with exactly that error, or the same label resurfaces
in the continuation. -/
theorem step_fail_mem_self {α β : Type} {l : String} {e : Err}
    {r : Res α} {k : α → List BEvent × Res β}
    (h : BEvent.fail l e ∈ (step l r k).1) :
    r = .error e ∨ ∃ a, r = .ok a ∧ BEvent.fail l e ∈ (k a).1 := by
  cases r with
  | error e0 =>
    have h2 : BEvent.fail l e ∈ [BEvent.fail l e0] := h
    have h3 := List.mem_singleton.mp h2
    injection h3 with h4 h5
    exact Or.inl (by rw [h5])
  | ok a =>
    have h2 : BEvent.fail l e ∈ BEvent.ok l :: (k a).1 := h
    rcases List.mem_cons.mp h2 with h3 | h3
    · exact BEvent.noConfusion h3
    · exact Or.inr ⟨a, rfl, h3⟩

section BootstrapMore

variable (d : Deps) (ctx : Ctx) (config : Config) (jwt : JWT)
  (zc : ZeusConfig) (zf : ProviderFactory Zeus ZeusConfig)
  (lc : LicensingConfig)
  (lcb : SQLStore → Zeus → ProviderFactory Licensing LicensingConfig)
  (em : NamedMap Emailing EmailingConfig)
  (ca : NamedMap Cache CacheConfig)
  (we : NamedMap Web WebConfig)
  (sq : NamedMap SQLStore SQLStoreConfig)
  (te : NamedMap TelemetryStore TelemetryStoreConfig)

/-- C6: a successful bootstrap registers exactly three named services in
the final Registry, in order instrumentation, alertmanager and licensing,
each being precisely the lifecycle of the corresponding field of the
assembled SigNoz object; every other constructed component (cache, web,
sqlstore, telemetrystore, prometheus, zeus, emailing) is exposed as a
field of the SigNoz object but appears in no registry entry. -/
theorem registry_registers_three_services :
    ∀ s : SigNoz,
      (NewT d ctx config jwt zc zf lc lcb em ca we sq te).2 = .ok s →
      s.registry.services =
        [⟨"instrumentation", s.instrumentation.service⟩,
         ⟨"alertmanager", s.alertmanager.service⟩,
         ⟨"licensing", s.licensing.service⟩] := by
  intro s h
  unfold NewT at h
  obtain ⟨instrumentation, hi, h⟩ := step_ok_inv h
  obtain ⟨zeus, hz, h⟩ := step_ok_inv h
  obtain ⟨emailing, he, h⟩ := step_ok_inv h
  obtain ⟨cache, hc, h⟩ := step_ok_inv h
  obtain ⟨web, hw, h⟩ := step_ok_inv h
  obtain ⟨sqlstore, hsq, h⟩ := step_ok_inv h
  obtain ⟨telemetrystore, ht, h⟩ := step_ok_inv h
  obtain ⟨prometheus, hp, h⟩ := step_ok_inv h
  obtain ⟨sqlmigrations, hm, h⟩ := step_ok_inv h
  obtain ⟨u, hu, h⟩ := step_ok_inv h
  obtain ⟨alertmanager, ha, h⟩ := step_ok_inv h
  obtain ⟨licensing, hl, h⟩ := step_ok_inv h
  obtain ⟨modules, hmd, h⟩ := step_ok_inv h
  obtain ⟨handlers, hh, h⟩ := step_ok_inv h
  obtain ⟨registry, hreg, h⟩ := step_ok_inv h
  have hreg2 : registry = Registry.mk instrumentation.logger
      [⟨"instrumentation", instrumentation.service⟩,
       ⟨"alertmanager", alertmanager.service⟩,
       ⟨"licensing", licensing.service⟩] false := by
    have hcalc : NewRegistry instrumentation.logger
        [⟨"instrumentation", instrumentation.service⟩,
         ⟨"alertmanager", alertmanager.service⟩,
         ⟨"licensing", licensing.service⟩]
        = .ok (Registry.mk instrumentation.logger
          [⟨"instrumentation", instrumentation.service⟩,
           ⟨"alertmanager", alertmanager.service⟩,
           ⟨"licensing", licensing.service⟩] false) := rfl
    rw [hcalc] at hreg
    injection hreg with hreg
    exact hreg.symm
  injection h with h2
  subst h2
  rw [hreg2]

end BootstrapMore

/-- Witness for C6: the concrete successful bootstrap run produces a
SigNoz whose registry holds exactly the three expected named services. -/
theorem registry_registers_three_services_witness :
    ∃ s : SigNoz, newOK.2 = .ok s ∧ s.registry.services =
      [⟨"instrumentation", s.instrumentation.service⟩,
       ⟨"alertmanager", s.alertmanager.service⟩,
       ⟨"licensing", s.licensing.service⟩] :=
  ⟨_, rfl, registry_registers_three_services deps0 ctx0 config0 jwt0 zc0
    zeusFactory0 lc0 licCb0 emailingMap0 cacheMap0 webMap0 sqlMap0 teleMap0
    _ rfl⟩

/-- Helper: the first two trace entries of a chain depend only on its
first two steps, not on the continuations that follow them. -/
theorem step2_take_two {A B C1 C2 : Type} {l1 l2 : String}
    (r1 : Res A) (r2 : A → Res B)
    (k1 : A → B → List BEvent × Res C1)
    (k2 : A → B → List BEvent × Res C2) :
    (step l1 r1 (fun a => step l2 (r2 a) (k1 a))).1.take 2
      = (step l1 r1 (fun a => step l2 (r2 a) (k2 a))).1.take 2 := by
  cases r1 with
  | error e => rfl
  | ok a =>
    show (BEvent.ok l1 :: (step l2 (r2 a) (k1 a)).1).take 2
        = (BEvent.ok l1 :: (step l2 (r2 a) (k2 a)).1).take 2
    cases hr : r2 a with
    | error e => rfl
    | ok b => rfl

section BootstrapZeus

variable (d : Deps) (ctx : Ctx) (config : Config) (jwt : JWT)
  (zc : ZeusConfig) (zf : ProviderFactory Zeus ZeusConfig)
  (lc : LicensingConfig)
  (lcb : SQLStore → Zeus → ProviderFactory Licensing LicensingConfig)
  (em : NamedMap Emailing EmailingConfig)
  (ca : NamedMap Cache CacheConfig)
  (we : NamedMap Web WebConfig)
  (sq : NamedMap SQLStore SQLStoreConfig)
  (te : NamedMap TelemetryStore TelemetryStoreConfig)

/-- C10: zeus is never selected by name. Any failure of the zeus step is
exactly the error produced by the single injected zeus factory invoked
directly with the zeus config (after instrumentation succeeded); the
first two steps of the bootstrap do not depend on any provider name in
the Config value (only on its instrumentation slice); hence the named-map
NotFound error cannot originate from the zeus construction step: if the
injected factory itself never returns a NotFound value, no zeus step
failure carries one. -/
theorem zeus_not_selected_by_name :
    (∀ e, BEvent.fail "zeus" e
        ∈ (NewT d ctx config jwt zc zf lc lcb em ca we sq te).1 →
      ∃ instr, d.instrumentationNew ctx config.Instrumentation = .ok instr
        ∧ zf.new ctx instr.providerSettings zc = .error e)
    ∧ (∀ config2 : Config,
        config2.Instrumentation = config.Instrumentation →
        (NewT d ctx config2 jwt zc zf lc lcb em ca we sq te).1.take 2
          = (NewT d ctx config jwt zc zf lc lcb em ca we sq te).1.take 2)
    ∧ (∀ comp nmz,
        (∀ ps, zf.new ctx ps zc ≠ .error (.notFound comp nmz)) →
        BEvent.fail "zeus" (.notFound comp nmz)
          ∉ (NewT d ctx config jwt zc zf lc lcb em ca we sq te).1) := by
  have h1 : ∀ e, BEvent.fail "zeus" e
      ∈ (NewT d ctx config jwt zc zf lc lcb em ca we sq te).1 →
      ∃ instr, d.instrumentationNew ctx config.Instrumentation = .ok instr
        ∧ zf.new ctx instr.providerSettings zc = .error e := by
    intro e hmem
    unfold NewT at hmem
    obtain ⟨instr, hi, hmem⟩ := step_fail_mem_ne (by decide) hmem
    rcases step_fail_mem_self hmem with hz | ⟨zeus, hz, hmem⟩
    · exact ⟨instr, hi, hz⟩
    · obtain ⟨_, _, hmem⟩ := step_fail_mem_ne (by decide) hmem
      obtain ⟨_, _, hmem⟩ := step_fail_mem_ne (by decide) hmem
      obtain ⟨_, _, hmem⟩ := step_fail_mem_ne (by decide) hmem
      obtain ⟨_, _, hmem⟩ := step_fail_mem_ne (by decide) hmem
      obtain ⟨_, _, hmem⟩ := step_fail_mem_ne (by decide) hmem
      obtain ⟨_, _, hmem⟩ := step_fail_mem_ne (by decide) hmem
      obtain ⟨_, _, hmem⟩ := step_fail_mem_ne (by decide) hmem
      obtain ⟨_, _, hmem⟩ := step_fail_mem_ne (by decide) hmem
      obtain ⟨_, _, hmem⟩ := step_fail_mem_ne (by decide) hmem
      obtain ⟨_, _, hmem⟩ := step_fail_mem_ne (by decide) hmem
      obtain ⟨_, _, hmem⟩ := step_fail_mem_ne (by decide) hmem
      obtain ⟨_, _, hmem⟩ := step_fail_mem_ne (by decide) hmem
      obtain ⟨_, _, hmem⟩ := step_fail_mem_ne (by decide) hmem
      exact absurd hmem (List.not_mem_nil _)
  refine ⟨h1, ?_, ?_⟩
  · intro config2 h2
    unfold NewT
    rw [h2]
    exact step2_take_two _ _ _ _
  · intro comp nmz hno hmem
    obtain ⟨instr, hi, hz⟩ := h1 _ hmem
    exact hno instr.providerSettings hz

end BootstrapZeus

/-- Witness for C10: on the concrete run whose zeus factory fails, the
zeus failure event in the trace is exactly the factory's own error,
produced after instrumentation succeeded. -/
theorem zeus_not_selected_by_name_witness :
    ∃ instr, deps0.instrumentationNew ctx0 config0.Instrumentation
        = .ok instr
      ∧ zeusFactoryBad.new ctx0 instr.providerSettings zc0
        = .error (.failure "zeus down") := by
  have h := (zeus_not_selected_by_name deps0 ctx0 config0 jwt0 zc0
    zeusFactoryBad lc0 licCb0 emailingMap0 cacheMap0 webMap0 sqlMap0
    teleMap0).1
  apply h
  show BEvent.fail "zeus" (.failure "zeus down") ∈ newZeusFail.1
  have ht : newZeusFail.1
      = [BEvent.ok "instrumentation",
         BEvent.fail "zeus" (.failure "zeus down")] := rfl
  rw [ht]
  exact List.mem_cons_of_mem _ (List.mem_singleton.mpr rfl)

end Signoz
